import Mathlib

/-!
Verification of the SERV test firmware (`src/firmware/microPython/serv.py`).

The firmware drives an FPGA-hosted SERV RISC-V core over SPI.  We embed the
parts the specification talks about:

* the 5-byte wire frame built by `write_word` (1 address byte followed by the
  four little-endian data bytes), including the `bytes(...)` range check that
  raises `ValueError` when a value does not fit in a byte;
* the program loader `load_program`, which writes each instruction word of a
  program to consecutive addresses starting at a base address;
* `reset_cpu`, which writes the RISC-V no-op word to addresses 0..15;
* the status-read check `test_basic_communication` (5 status reads compared
  against the sentinel 0xA5);
* the stress test `stress_test` (writes to `i % 256`, then informational
  average/rate figures computed by dividing by the iteration count and by the
  measured elapsed time — the latter a Python `ZeroDivisionError` when the
  elapsed time is 0);
* the suite orchestrator `run_all_tests`, which runs the 7 registered checks
  in a fixed order, turns a raised error into a `False` outcome, and reports
  overall success as `passed == total`.

Transport activity is modelled as a trace of `BusOp`s: each SPI transaction
the firmware issues appends one `BusOp` (a 5-byte frame write or a single
status-byte read).  Timing delays (`time.sleep_*`) have no observable effect
in this model and are elided.  Fallible Python code is modelled with
`Except String`: the error value carries the exception's rendered text.
Checks invoked by the suite are modelled by their behaviour, an
`Except String Bool` (a returned boolean, or the text of a raised error),
quantified over in the suite-level theorems.
-/

namespace ServLite

/-- One SPI transaction observed on the bus: a 5-byte frame write
(`write_word`'s `self.spi.write(packet)`) or a single status-byte read
(`read_response`'s `self.spi.read(1)`, recording the byte the FPGA returned). -/
inductive BusOp where
  | writeFrame (packet : List Nat) : BusOp
  | readStatus (value : Nat) : BusOp
deriving DecidableEq

/-- The packet built inside `write_word`:
`bytes([address, data & 0xFF, (data >> 8) & 0xFF, (data >> 16) & 0xFF, (data >> 24) & 0xFF])`. -/
def encodeFrame (address data : Nat) : List Nat :=
  [address, data &&& 0xFF, (data >>> 8) &&& 0xFF, (data >>> 16) &&& 0xFF,
    (data >>> 24) &&& 0xFF]

/-- Python's `bytes(list)` accepts the list only when every element fits in a
byte (0..255); otherwise it raises `ValueError`. -/
def bytesOk (packet : List Nat) : Bool :=
  packet.all (fun b => b < 256)

/-- `write_word(address, data)`: builds the 5-byte packet and transmits it.
Returns the packet put on the bus, or the `ValueError` that `bytes(...)`
raises when a value (only the unmasked address byte can) exceeds 255. -/
def write_word (address data : Nat) : Except String (List Nat) :=
  if bytesOk (encodeFrame address data) then Except.ok (encodeFrame address data)
  else Except.error "ValueError: bytes value out of range"

/-- The loop body of `load_program`: `for i, instruction in enumerate(program):
self.write_word(start_address + i, instruction)`.  Returns the trace of frame
writes issued, and the error if some `write_word` raised (aborting the rest,
the earlier writes having already happened). -/
def loadLoop (start_address : Nat) : List Nat → Nat → List BusOp × Except String Unit
  | [], _ => ([], Except.ok ())
  | instruction :: rest, i =>
    match write_word (start_address + i) instruction with
    | Except.error e => ([], Except.error e)
    | Except.ok packet =>
      match loadLoop start_address rest (i + 1) with
      | (ops, r) => (BusOp.writeFrame packet :: ops, r)

/-- `load_program(program, start_address)`: writes the i-th instruction word
to address `start_address + i`. -/
def load_program (program : List Nat) (start_address : Nat) :
    List BusOp × Except String Unit :=
  loadLoop start_address program 0

/-- The loop of `reset_cpu`: `for i in range(16): tester.write_word(i, 0x00000013)`. -/
def resetLoop : List Nat → List BusOp × Except String Unit
  | [] => ([], Except.ok ())
  | i :: rest =>
    match write_word i 0x00000013 with
    | Except.error e => ([], Except.error e)
    | Except.ok packet =>
      match resetLoop rest with
      | (ops, r) => (BusOp.writeFrame packet :: ops, r)

/-- `reset_cpu()`: loads the RISC-V no-op `0x00000013` into the first 16
memory locations. -/
def reset_cpu : List BusOp × Except String Unit :=
  resetLoop (List.range 16)

/-- The loop of `test_basic_communication`, with the FPGA's responses modelled
by `reads` (the byte returned by the i-th `read_response()`).  Threads
`success_count` and returns the trace of status reads together with the final
count: `if response == expected: success_count += 1`. -/
def commLoop (reads : Nat → Nat) : List Nat → Nat → List BusOp × Nat
  | [], success_count => ([], success_count)
  | i :: rest, success_count =>
    let response := reads i
    match commLoop reads rest
      (if response == 0xA5 then success_count + 1 else success_count) with
    | (ops, c) => (BusOp.readStatus response :: ops, c)

/-- `test_basic_communication()`: reads the status byte 5 times, counts the
reads that returned the sentinel `0xA5`, and passes iff all 5 did
(`passed = success_count == 5`). -/
def test_basic_communication (reads : Nat → Nat) : List BusOp × Bool :=
  match commLoop reads (List.range 5) 0 with
  | (ops, success_count) => (ops, success_count == 5)

/-- The write loop of `stress_test`:
`for i in range(iterations): self.write_word(i % 256, (i * 0x01010101) & 0xFFFFFFFF)`. -/
def stressLoop : List Nat → List BusOp × Except String Unit
  | [] => ([], Except.ok ())
  | i :: rest =>
    match write_word (i % 256) ((i * 0x01010101) &&& 0xFFFFFFFF) with
    | Except.error e => ([], Except.error e)
    | Except.ok packet =>
      match stressLoop rest with
      | (ops, r) => (BusOp.writeFrame packet :: ops, r)

/-- `stress_test(iterations)` with the measured elapsed time (in ms, from
`time.ticks_diff`) as an environment parameter.  After the writes it prints
`elapsed/iterations` and then `iterations*1000/elapsed`; each division raises
`ZeroDivisionError` when its divisor is 0.  Returns the trace of writes and
either `True` or the raised error. -/
def stress_test (elapsed : Nat) (iterations : Nat) : List BusOp × Except String Bool :=
  match stressLoop (List.range iterations) with
  | (ops, Except.error e) => (ops, Except.error e)
  | (ops, Except.ok _) =>
    if iterations = 0 then (ops, Except.error "ZeroDivisionError: division by zero")
    else if elapsed = 0 then (ops, Except.error "ZeroDivisionError: division by zero")
    else (ops, Except.ok true)

/-- The boolean recorded by the suite for one check: the value the check
returned, or `False` when it raised (`except Exception: results.append((test_name, False))`). -/
def outcomeOf : Except String Bool → Bool
  | Except.ok result => result
  | Except.error _ => false

/-- The `for test_name, test_func in tests` loop of `run_all_tests`: each
check appends exactly one `(test_name, result)` record, a raised error
appending `(test_name, False)`, and the loop always continues to the next
check. -/
def runChecks : List (String × Except String Bool) → List (String × Bool)
  | [] => []
  | (test_name, behaviour) :: rest =>
    (test_name,
      match behaviour with
      | Except.ok result => result
      | Except.error _ => false) :: runChecks rest

/-- `run_all_tests()`, with the i-th registered check's behaviour given by
`behav i`.  Runs the fixed list of 7 named checks in order, then computes
`passed = sum(1 for _, result in results if result)`, `total = len(results)`
and returns `(results, passed == total)`. -/
def run_all_tests (behav : Nat → Except String Bool) : List (String × Bool) × Bool :=
  let results := runChecks
    [("Basic SPI Communication", behav 0),
     ("Memory Write (32-bit)", behav 1),
     ("CPU Bootstrap Check", behav 2),
     ("Simple Custom Program", behav 3),
     ("Counting Loop Program", behav 4),
     ("Data Memory Write", behav 5),
     ("Stress Test", behav 6)]
  (results, (results.countP (fun r => r.2)) == results.length)

/-- The names of the 7 registered checks, in suite order. -/
def testNames : List String :=
  ["Basic SPI Communication", "Memory Write (32-bit)", "CPU Bootstrap Check",
   "Simple Custom Program", "Counting Loop Program", "Data Memory Write",
   "Stress Test"]

/-- Little-endian byte `j` of a data word, as the spec describes the frame
layout (`data_lsb, data_byte1, data_byte2, data_msb`).  Written from the
spec's words, to be compared with the frame `write_word` builds. -/
def leByte (data j : Nat) : Nat :=
  data / 256 ^ j % 256

theorem land255_eq_mod (n : Nat) : n &&& 255 = n % 256 := by
  have h := Nat.and_pow_two_sub_one_eq_mod n 8
  norm_num at h
  exact h

theorem encodeFrame_eq (address data : Nat) :
    encodeFrame address data =
      [address, data % 256, data / 2 ^ 8 % 256, data / 2 ^ 16 % 256,
        data / 2 ^ 24 % 256] := by
  simp only [encodeFrame, Nat.shiftRight_eq_div_pow, land255_eq_mod]

theorem bytesOk_encodeFrame (address data : Nat) (h : address < 256) :
    bytesOk (encodeFrame address data) = true := by
  rw [encodeFrame_eq]
  simp only [bytesOk, List.all_cons, List.all_nil, Bool.and_true, Bool.and_eq_true,
    decide_eq_true_eq]
  omega

theorem write_word_ok (address data : Nat) (h : address < 256) :
    write_word address data = Except.ok (encodeFrame address data) := by
  rw [write_word, if_pos (bytesOk_encodeFrame address data h)]

theorem loadLoop_ok (start_address : Nat) (program : List Nat) :
    ∀ i, start_address + i + program.length ≤ 256 →
      loadLoop start_address program i =
        ((program.enumFrom i).map
          (fun p => BusOp.writeFrame (encodeFrame (start_address + p.1) p.2)),
         Except.ok ()) := by
  induction program with
  | nil => intro i _; rfl
  | cons a rest ih =>
    intro i h
    simp only [List.length_cons] at h
    rw [loadLoop, write_word_ok _ _ (by omega), ih (i + 1) (by omega)]
    simp [List.enumFrom]

/-- C3: for every address in 0..255 and data in 0..2^32-1, the packet built by
`write_word` has exactly 5 bytes, byte 0 the address and bytes 1..4 the
little-endian bytes of the data; in particular the frame for address 10 and
data 0xABCDEF00 is [10, 0x00, 0xEF, 0xCD, 0xAB]. -/
theorem C3_encode_le (address data : Nat) (ha : address < 256) (hd : data < 2 ^ 32) :
    (encodeFrame address data).length = 5 ∧
    encodeFrame address data =
      [address, leByte data 0, leByte data 1, leByte data 2, leByte data 3] ∧
    encodeFrame 10 0xABCDEF00 = [10, 0x00, 0xEF, 0xCD, 0xAB] := by
  refine ⟨rfl, ?_, by decide⟩
  rw [encodeFrame_eq]
  simp only [leByte]
  norm_num

/-- C3 witness: the theorem at address 10, data 0xABCDEF00. -/
theorem C3_witness :
    (10 : Nat) < 256 ∧ (0xABCDEF00 : Nat) < 2 ^ 32 ∧
    encodeFrame 10 0xABCDEF00 =
      [10, leByte 0xABCDEF00 0, leByte 0xABCDEF00 1, leByte 0xABCDEF00 2,
        leByte 0xABCDEF00 3] :=
  ⟨by decide, by decide, (C3_encode_le 10 0xABCDEF00 (by decide) (by decide)).2.1⟩

/-- C9: for every nonnegative data value, including values at or above 2^32,
`write_word` (at a valid address) succeeds with a frame of exactly 5 bytes,
each byte in 0..255, whose data bytes encode `data mod 2^32` little-endian:
high bits are silently discarded, with no error and no longer frame. -/
theorem C9_truncation (address data : Nat) (ha : address < 256) :
    write_word address data = Except.ok (encodeFrame address data) ∧
    (encodeFrame address data).length = 5 ∧
    (∀ b ∈ encodeFrame address data, b < 256) ∧
    encodeFrame address data =
      [address, leByte (data % 2 ^ 32) 0, leByte (data % 2 ^ 32) 1,
        leByte (data % 2 ^ 32) 2, leByte (data % 2 ^ 32) 3] := by
  refine ⟨write_word_ok address data ha, rfl, ?_, ?_⟩
  · rw [encodeFrame_eq]
    intro b hb
    simp only [List.mem_cons, List.not_mem_nil, or_false] at hb
    rcases hb with rfl | rfl | rfl | rfl | rfl <;> omega
  · rw [encodeFrame_eq]
    simp only [leByte]
    norm_num
    omega

/-- C9 witness: the theorem at address 3, data 2^32 + 5 (above 32 bits). -/
theorem C9_witness :
    (3 : Nat) < 256 ∧
    write_word 3 (2 ^ 32 + 5) = Except.ok (encodeFrame 3 (2 ^ 32 + 5)) ∧
    encodeFrame 3 (2 ^ 32 + 5) =
      [3, leByte ((2 ^ 32 + 5) % 2 ^ 32) 0, leByte ((2 ^ 32 + 5) % 2 ^ 32) 1,
        leByte ((2 ^ 32 + 5) % 2 ^ 32) 2, leByte ((2 ^ 32 + 5) % 2 ^ 32) 3] :=
  ⟨by decide, (C9_truncation 3 (2 ^ 32 + 5) (by decide)).1,
    (C9_truncation 3 (2 ^ 32 + 5) (by decide)).2.2.2⟩

/-- C10: for every base address, loading the empty program issues no
transport operation at all and returns normally. -/
theorem C10_empty_program (base : Nat) :
    (load_program [] base).1 = [] ∧ (load_program [] base).2 = Except.ok () :=
  ⟨rfl, rfl⟩

/-- C8: `reset_cpu` issues exactly 16 frame writes, one to each address
0..15 in ascending order, each carrying the no-op word 0x00000013, and no
other transport operation. -/
theorem C8_reset_cpu :
    reset_cpu.1 =
      (List.range 16).map (fun i => BusOp.writeFrame (encodeFrame i 0x00000013)) ∧
    reset_cpu.1.length = 16 ∧
    reset_cpu.2 = Except.ok () := by
  refine ⟨?_, ?_, ?_⟩ <;> rfl

/-- C1 (amended): whenever `base + len(program) ≤ 256` — so no address leaves
the 8-bit range — `load_program` issues exactly `len(program)` frame writes,
the i-th to address `base + i`, in ascending offset order, with no other
transport operation interleaved, and returns normally.  (Addresses are NOT
reduced mod 256: an out-of-range address makes `bytes(...)` raise instead,
see the counterexample.) -/
theorem C1_load_program_writes (program : List Nat) (base : Nat)
    (h : base + program.length ≤ 256) :
    (load_program program base).1 =
      program.enum.map (fun p => BusOp.writeFrame (encodeFrame (base + p.1) p.2)) ∧
    (load_program program base).1.length = program.length ∧
    (load_program program base).2 = Except.ok () := by
  have hl := loadLoop_ok base program 0 (by omega)
  rw [load_program] at *
  rw [hl]
  refine ⟨rfl, ?_, rfl⟩
  simp [List.enum]

/-- C1 witness: the amended theorem on the two-word no-op program at base 0. -/
theorem C1_witness :
    0 + ([0x00000013, 0x00000013] : List Nat).length ≤ 256 ∧
    (load_program [0x00000013, 0x00000013] 0).1 =
      ([0x00000013, 0x00000013] : List Nat).enum.map
        (fun p => BusOp.writeFrame (encodeFrame (0 + p.1) p.2)) :=
  ⟨by decide, (C1_load_program_writes [0x00000013, 0x00000013] 0 (by decide)).1⟩

/-- C1 counterexample: loading the two-word program [0x13, 0x13] at base 255
does NOT issue 2 writes with the second wrapped to address (255+1) mod 256 = 0:
`bytes([256, ...])` raises ValueError, so only the first write is issued and
the load aborts with the error. -/
theorem C1_counterexample :
    (load_program [0x00000013, 0x00000013] 255).1 =
      [BusOp.writeFrame (encodeFrame 255 0x00000013)] ∧
    (load_program [0x00000013, 0x00000013] 255).1.length ≠ 2 ∧
    (load_program [0x00000013, 0x00000013] 255).2 =
      Except.error "ValueError: bytes value out of range" := by
  refine ⟨rfl, by decide, rfl⟩

theorem commLoop_spec (reads : Nat → Nat) (l : List Nat) :
    ∀ c, commLoop reads l c =
      (l.map (fun i => BusOp.readStatus (reads i)),
       c + l.countP (fun i => reads i == 0xA5)) := by
  induction l with
  | nil => intro c; rfl
  | cons a rest ih =>
    intro c
    rw [commLoop, ih]
    simp only [List.map_cons, List.countP_cons]
    cases h : reads a == 0xA5 <;> simp [h] <;> omega

/-- C6: the status-read check performs exactly 5 status-byte reads (and no
other transport operation) and passes iff all 5 reads equal 0xA5; a transport
answering 0xA5 five times makes it pass, and a transport answering 0xA4 from
the third read on makes it fail, its internal success count ending at 2. -/
theorem C6_status_check (reads : Nat → Nat) :
    (test_basic_communication reads).1 =
      (List.range 5).map (fun i => BusOp.readStatus (reads i)) ∧
    ((test_basic_communication reads).2 = true ↔ ∀ i < 5, reads i = 0xA5) ∧
    (test_basic_communication (fun _ => 0xA5)).2 = true ∧
    (test_basic_communication (fun i => if i < 2 then 0xA5 else 0xA4)).2 = false ∧
    (commLoop (fun i => if i < 2 then 0xA5 else 0xA4) (List.range 5) 0).2 = 2 := by
  refine ⟨?_, ?_, by decide, by decide, by decide⟩
  · rw [test_basic_communication, commLoop_spec]
  · rw [test_basic_communication, commLoop_spec]
    simp only [Nat.zero_add, beq_iff_eq]
    have key : List.countP (fun i => reads i == 0xA5) (List.range 5) =
        (List.range 5).length ↔
        ∀ a ∈ List.range 5, (fun i => reads i == 0xA5) a = true :=
      List.countP_eq_length
    simp only [List.length_range, List.mem_range, beq_iff_eq] at key
    exact key

/-- C7 (amended): whenever the measured elapsed time is nonzero, the stress
test with 50 iterations issues exactly 50 frame writes, the i-th to address
`i % 256` (addresses 0..49), and returns `True` without raising.  (For a
measured elapsed time of 0 the rate computation divides by zero, see the
counterexample.) -/
theorem C7_stress_test (elapsed : Nat) (h : elapsed ≠ 0) :
    (stress_test elapsed 50).1 =
      (List.range 50).map
        (fun i => BusOp.writeFrame (encodeFrame (i % 256) ((i * 0x01010101) &&& 0xFFFFFFFF))) ∧
    (stress_test elapsed 50).1.length = 50 ∧
    (stress_test elapsed 50).2 = Except.ok true := by
  have hrun : stressLoop (List.range 50) =
      ((List.range 50).map
        (fun i => BusOp.writeFrame (encodeFrame (i % 256) ((i * 0x01010101) &&& 0xFFFFFFFF))),
       Except.ok ()) := by rfl
  rw [stress_test, hrun]
  simp [h]

/-- C7 witness: the amended theorem at a measured elapsed time of 7 ms. -/
theorem C7_witness :
    (7 : Nat) ≠ 0 ∧ (stress_test 7 50).2 = Except.ok true ∧
    (stress_test 7 50).1.length = 50 :=
  ⟨by decide, (C7_stress_test 7 (by decide)).2.2, (C7_stress_test 7 (by decide)).2.1⟩

/-- C7 counterexample: when the measured elapsed time is 0 the stress test
still issues its 50 writes but then raises ZeroDivisionError computing the
writes-per-second rate, instead of returning `True` without raising. -/
theorem C7_counterexample :
    (stress_test 0 50).2 = Except.error "ZeroDivisionError: division by zero" ∧
    (stress_test 0 50).1.length = 50 := by
  exact ⟨rfl, rfl⟩

theorem runChecks_cons (test_name : String) (behaviour : Except String Bool)
    (rest : List (String × Except String Bool)) :
    runChecks ((test_name, behaviour) :: rest) =
      (test_name, outcomeOf behaviour) :: runChecks rest := by
  cases behaviour <;> rfl

theorem run_all_tests_results (behav : Nat → Except String Bool) :
    (run_all_tests behav).1 =
      [("Basic SPI Communication", outcomeOf (behav 0)),
       ("Memory Write (32-bit)", outcomeOf (behav 1)),
       ("CPU Bootstrap Check", outcomeOf (behav 2)),
       ("Simple Custom Program", outcomeOf (behav 3)),
       ("Counting Loop Program", outcomeOf (behav 4)),
       ("Data Memory Write", outcomeOf (behav 5)),
       ("Stress Test", outcomeOf (behav 6))] := by
  simp only [run_all_tests, runChecks_cons]
  rfl

/-- C2: for every behaviour of the individual checks (any mix of returned
booleans and raised errors), `run_all_tests` records exactly one outcome per
registered check, runs all 7 checks in the fixed order, records a raising
check as a failing outcome while the remaining checks still run, so the
report's total count is always 7. -/
theorem C2_suite_isolation (behav : Nat → Except String Bool) :
    (run_all_tests behav).1.length = 7 ∧
    (run_all_tests behav).1 =
      [("Basic SPI Communication", outcomeOf (behav 0)),
       ("Memory Write (32-bit)", outcomeOf (behav 1)),
       ("CPU Bootstrap Check", outcomeOf (behav 2)),
       ("Simple Custom Program", outcomeOf (behav 3)),
       ("Counting Loop Program", outcomeOf (behav 4)),
       ("Data Memory Write", outcomeOf (behav 5)),
       ("Stress Test", outcomeOf (behav 6))] ∧
    (∀ i e, behav i = Except.error e → outcomeOf (behav i) = false) := by
  refine ⟨?_, run_all_tests_results behav, ?_⟩
  · rw [run_all_tests_results]
    rfl
  · intro i e h
    rw [h]
    rfl

/-- C4: for every behaviour of the checks, the suite's overall result is true
iff the number of passing outcomes equals the number of recorded outcomes,
and is false whenever the passed count is less than the total. -/
theorem C4_overall_success (behav : Nat → Except String Bool) :
    ((run_all_tests behav).2 = true ↔
      (run_all_tests behav).1.countP (fun r => r.2) =
        (run_all_tests behav).1.length) ∧
    ((run_all_tests behav).1.countP (fun r => r.2) <
        (run_all_tests behav).1.length →
      (run_all_tests behav).2 = false) := by
  have h2 : (run_all_tests behav).2 =
      ((run_all_tests behav).1.countP (fun r => r.2) ==
        (run_all_tests behav).1.length) := rfl
  constructor
  · rw [h2]
    exact beq_iff_eq
  · intro hlt
    rw [h2]
    simp only [beq_eq_false_iff_ne, ne_eq]
    omega

/-- C5 (amended): when a registered check raises, the outcome recorded for it
is the pair (check name, false) — the raised error's description is printed
to the console but is not stored in the recorded outcome, which has no
description field. -/
theorem C5_error_recorded (behav : Nat → Except String Bool) (i : Nat)
    (e : String) (hi : i < 7) (he : behav i = Except.error e) :
    (run_all_tests behav).1.getD i ("", true) = (testNames.getD i "", false) := by
  rw [run_all_tests_results]
  interval_cases i <;> simp [List.getD, testNames, he, outcomeOf]

/-- C5 witness: the amended theorem with the first check raising "boom". -/
theorem C5_witness :
    (0 : Nat) < 7 ∧
    (run_all_tests (fun _ => Except.error "boom")).1.getD 0 ("", true) =
      (testNames.getD 0 "", false) :=
  ⟨by decide, C5_error_recorded (fun _ => Except.error "boom") 0 "boom" (by decide) rfl⟩

/-- C5 counterexample: the outcome the suite stores for a raising check does
not carry the error's description: running with the first check raising
"boom" and with it raising "zap" records identical results, the stored
outcome being exactly ("Basic SPI Communication", false) in both runs. -/
theorem C5_counterexample :
    (run_all_tests (fun i => if i = 0 then Except.error "boom" else Except.ok true)).1 =
      (run_all_tests (fun i => if i = 0 then Except.error "zap" else Except.ok true)).1 ∧
    (run_all_tests (fun i => if i = 0 then Except.error "boom" else Except.ok true)).1.getD
        0 ("", true) =
      ("Basic SPI Communication", false) := by
  exact ⟨rfl, rfl⟩

end ServLite
